import Mathlib

/-!
Verification of the uptime-monitoring backend (`src/backend/main.py`) against
its natural-language specification.

The Python source is shallowly embedded: each relevant Python function becomes
a Lean function of the same name operating on explicit state.  Network I/O is
abstracted as an `HttpOutcome` oracle (per probe: either an HTTP response with
a numeric status code was received, or a transport-level exception with a
message was raised), database access as explicit lists of rows, and the
awaited uptime query in a probe round as an `Option`-valued oracle (`none`
models the awaited call raising an exception).  Python floats arising in the
uptime computation are modelled as exact rationals, with Python's banker
rounding `round(x, 2)` made explicit.
-/

namespace Monitor

/-- The probe status, `"up"` or `"down"` in the Python source. -/
inductive Status where
  | up
  | down
deriving DecidableEq, Repr

/-- The dict returned by `check_single_url` (before uptime stats are attached
in `monitor_urls_once`). -/
structure ProbeResult where
  name : String
  url : String
  status : Status
  status_code : Nat
  error : Option String
deriving DecidableEq, Repr

/-- One row of the `status_checks` table: `(name, timestamp, status)`.
Timestamps are seconds as integers. -/
structure CheckRecord where
  name : String
  timestamp : Int
  status : Status
deriving DecidableEq, Repr

/-- One fired alert task: the arguments `check_single_url` /
`manual_restart` pass to `trigger_n8n_alert` via `asyncio.create_task`. -/
structure Alert where
  name : String
  url : String
  detail : String
deriving DecidableEq, Repr

/-- The outcome of `await client.head(url, ...)`: either an HTTP response
with a status code was received, or a transport-level exception (timeout,
DNS, connection refused, TLS failure) was raised with message `msg`
(Python's `str(e)`). -/
inductive HttpOutcome where
  | response (code : Nat)
  | failure (msg : String)
deriving DecidableEq, Repr

/-- The mutable state `check_single_url` touches: the module-global
`state.previous_url_statuses` dict, the `status_checks` table rows appended
by `log_check`, and the log of `trigger_n8n_alert` tasks created. -/
structure CheckState where
  prev : String → Option Status
  history : List CheckRecord
  alerts : List Alert

/-- Embedding of `check_single_url(client, name, url)` (main.py lines
231-260).  The `try` block sends the HEAD request; on a received response it
builds the result dict and `return`s it directly — note that this early
return skips the side-effect block (history append, alert trigger,
previous-status update), which is only reached on the exception path.
On an exception, `result` is built with status `down`, code `0` and the
exception text; then one `log_check` row is appended, an alert task is
created if the result is `down` and `previous_url_statuses.get(name)` is not
`"down"` (the alert detail is `result["error"] or "Status check failed"`,
so the empty string falls back), and `previous_url_statuses[name]` is set. -/
def check_single_url (st : CheckState) (name url : String) (outcome : HttpOutcome)
    (now : Int) : ProbeResult × CheckState :=
  match outcome with
  | .response code =>
      let status := if 200 ≤ code ∧ code < 400 then Status.up else Status.down
      ({ name := name, url := url, status := status, status_code := code,
         error := none }, st)
  | .failure msg =>
      let result : ProbeResult :=
        { name := name, url := url, status := Status.down, status_code := 0,
          error := some msg }
      let st1 : CheckState :=
        { st with history := st.history ++ [⟨name, now, result.status⟩] }
      let detail := if msg = "" then "Status check failed" else msg
      let st2 : CheckState :=
        if result.status = Status.down ∧ st1.prev name ≠ some Status.down then
          { st1 with alerts := st1.alerts ++ [⟨name, url, detail⟩] }
        else st1
      let st3 : CheckState :=
        { st2 with prev := fun n => if n = name then some result.status else st2.prev n }
      (result, st3)

/-- An empty `CheckState`: no previous statuses, no history, no alerts. -/
def cs0 : CheckState := ⟨fun _ => none, [], []⟩

/-- The SQL window filter of `get_uptime_stats`:
`name = ? AND timestamp >= datetime('now', <offset>)`, with the window
lower bound `lo` passed in as an absolute timestamp. -/
def inWindow (r : CheckRecord) (name : String) (lo : Int) : Bool :=
  r.name == name && decide (lo ≤ r.timestamp)

/-- The SQL aggregate
`COUNT(*) FILTER (WHERE status = 'up') * 100.0 / COUNT(*)` over the rows
selected by the window filter.  SQLite evaluates `x / 0` to `NULL`, returned
here as `none`; otherwise the exact rational percentage. -/
def sqlUptimePct (recs : List CheckRecord) (name : String) (lo : Int) : Option ℚ :=
  let rel := recs.filter (fun r => inWindow r name lo)
  if rel.length = 0 then none
  else some (((rel.filter (fun r => r.status == Status.up)).length : ℚ) * 100 / rel.length)

/-- Python's `x or d` applied to the fetched SQL value: `None` (SQL `NULL`)
and the falsy float `0.0` both yield the default `d`. -/
def pyOrDefault (x : Option ℚ) (d : ℚ) : ℚ :=
  match x with
  | none => d
  | some v => if v = 0 then d else v

/-- Floor of a rational, written with explicit integer floor division. -/
def ratFloor (q : ℚ) : Int := Int.fdiv q.num (q.den : Int)

/-- Python's banker rounding to an integer: round half to even. -/
def roundHalfEven (q : ℚ) : Int :=
  let f := ratFloor q
  let frac := q - (f : ℚ)
  if frac < 1 / 2 then f
  else if 1 / 2 < frac then f + 1
  else if f % 2 = 0 then f else f + 1

/-- Python's `round(x, 2)`. -/
def pyRound2 (q : ℚ) : ℚ := (roundHalfEven (q * 100) : ℚ) / 100

/-- Embedding of `get_uptime_stats(name)` (main.py lines 123-150) over the
`status_checks` rows `recs`, with `now` the current timestamp in seconds.
Each window query computes the SQL percentage, applies Python's
`row[0] or 100.0`, and rounds to two decimals; the pair is the
`{"24h": ..., "7d": ...}` dict. -/
def get_uptime_stats (recs : List CheckRecord) (name : String) (now : Int) : ℚ × ℚ :=
  (pyRound2 (pyOrDefault (sqlUptimePct recs name (now - 86400)) 100),
   pyRound2 (pyOrDefault (sqlUptimePct recs name (now - 7 * 86400)) 100))

/-- The database state: the `clients` table (name primary key → url, in rowid
order) and the `status_checks` table. -/
structure Db where
  clients : List (String × String)
  status_checks : List CheckRecord
deriving DecidableEq, Repr

/-- Embedding of `add_db_client(name, url)` (main.py lines 100-105):
`INSERT OR REPLACE` on the primary key `name`. -/
def add_db_client (name url : String) (db : Db) : Db :=
  { db with clients :=
      if db.clients.any (fun c => c.1 == name) then
        db.clients.map (fun c => if c.1 == name then (name, url) else c)
      else db.clients ++ [(name, url)] }

/-- Embedding of `remove_db_client(name)` (main.py lines 108-112): deletes
the `clients` row and every `status_checks` row for `name`. -/
def remove_db_client (name : String) (db : Db) : Db :=
  { clients := db.clients.filter (fun c => ! (c.1 == name)),
    status_checks := db.status_checks.filter (fun r => ! (r.name == name)) }

/-- A probe result with the uptime dict attached
(`res["uptime"] = stats` in `monitor_urls_once`). -/
structure FinalResult where
  res : ProbeResult
  uptime : ℚ × ℚ
deriving DecidableEq, Repr

/-- The module-global state used by `monitor_urls_once` and the endpoints:
the in-memory `CLIENT_URLS` dict, `state.system_stats`,
`state.url_statuses`, and the probe side-effect state. -/
structure AppState where
  client_urls : List (String × String)
  system_stats : List (String × ℚ)
  url_statuses : List FinalResult
  check : CheckState

/-- The fan-out `asyncio.gather` over
`[check_single_url(http_client, name, url) for name, url in CLIENT_URLS.items()]`:
results come back in registry order; each probe's side effects are applied
to the shared state (each probe's post-`try` block runs without suspension
points, and distinct targets touch distinct dict keys, so the gathered
effects compose sequentially). -/
def runChecks (net : String → String → HttpOutcome) (now : Int) :
    CheckState → List (String × String) → List ProbeResult × CheckState
  | st, [] => ([], st)
  | st, (n, u) :: rest =>
      let pr := check_single_url st n u (net n u) now
      let tail := runChecks net now pr.2 rest
      (pr.1 :: tail.1, tail.2)

/-- The uptime-attachment loop of `monitor_urls_once`: for each result in
order, `stats = await get_uptime_stats(res["name"])` — an awaited call that
may raise, modelled by the oracle `uptimeOf` returning `none`.  A raise
propagates out of the loop before `state.url_statuses` is assigned, so the
whole traversal is `none`. -/
def attachUptime (uptimeOf : String → Option (ℚ × ℚ)) :
    List ProbeResult → Option (List FinalResult)
  | [] => some []
  | r :: rs =>
      match uptimeOf r.name with
      | none => none
      | some stats => (attachUptime uptimeOf rs).map (fun l => ⟨r, stats⟩ :: l)

/-- The sort key `lambda x: 0 if x["status"] == "down" else 1`. -/
def sortKey (r : FinalResult) : Nat := if r.res.status = Status.down then 0 else 1

/-- Stable insertion by key: `x` is placed before the first element whose key
is not smaller, so elements with equal keys keep their original relative
order.  Together with `pySort` this models Python's stable `list.sort(key=k)`. -/
def insertStable {α : Type} (k : α → Nat) (x : α) : List α → List α
  | [] => [x]
  | y :: ys => if k x ≤ k y then x :: y :: ys else y :: insertStable k x ys

/-- Stable sort by key, modelling Python's `list.sort(key=k)` (Timsort is
stable). -/
def pySort {α : Type} (k : α → Nat) : List α → List α
  | [] => []
  | x :: xs => insertStable k x (pySort k xs)

/-- Embedding of `monitor_urls_once()` (main.py lines 361-379): gather all
probes over `CLIENT_URLS`, then attach uptime stats to each result in order,
then sort down-first and assign `state.url_statuses` in a single statement.
If an uptime lookup raises (`attachUptime` is `none`), the exception
propagates before that assignment and `url_statuses` is left untouched
(the probes' own side effects in `check` have already happened). -/
def monitor_urls_once (net : String → String → HttpOutcome)
    (uptimeOf : String → Option (ℚ × ℚ)) (now : Int) (s : AppState) : AppState :=
  let checks := runChecks net now s.check s.client_urls
  let s1 : AppState := { s with check := checks.2 }
  match attachUptime uptimeOf checks.1 with
  | none => s1
  | some finals => { s1 with url_statuses := pySort sortKey finals }

/-- The JSON payload built by `ConnectionManager.get_payload`:
`{"type": "update", "system": state.system_stats, "urls": state.url_statuses}`. -/
structure Payload where
  type : String
  system : List (String × ℚ)
  urls : List FinalResult
deriving DecidableEq, Repr

/-- `ConnectionManager.get_payload(self)` (main.py lines 191-196). -/
def get_payload (s : AppState) : Payload :=
  { type := "update", system := s.system_stats, urls := s.url_statuses }

/-- The `ConnectionManager`: its `active_connections` list, with observers
identified by numbers. -/
structure ConnectionManager where
  active_connections : List Nat
deriving DecidableEq, Repr

/-- The `for connection in self.active_connections:` loop of
`ConnectionManager.broadcast` (main.py lines 183-189).  Each send is wrapped
in `try: await connection.send_json(payload) except Exception: pass`; the
oracle `sendOk` tells whether the send to a given observer succeeds.  The
returned log records, in list order, each attempted delivery with the payload
it carried and whether it succeeded — a failed send is swallowed and the loop
continues with the next observer. -/
def broadcastLoop (payload : Payload) (sendOk : Nat → Bool) :
    List Nat → List (Nat × Payload × Bool)
  | [] => []
  | c :: cs => (c, payload, sendOk c) :: broadcastLoop payload sendOk cs

/-- Embedding of `ConnectionManager.broadcast(self)`: computes the payload
once, attempts to send it to every active connection, never mutates the
connection list and never raises.  Returns the unchanged manager and the
delivery-attempt log. -/
def broadcast (m : ConnectionManager) (s : AppState) (sendOk : Nat → Bool) :
    ConnectionManager × List (Nat × Payload × Bool) :=
  (m, broadcastLoop (get_payload s) sendOk m.active_connections)

/-- Embedding of `ConnectionManager.disconnect(self, websocket)` (main.py
lines 179-181): removes the observer from `active_connections` if present —
this is what `websocket_endpoint` calls on the observer's next interaction
(a `WebSocketDisconnect` while awaiting its inbound traffic). -/
def disconnect (m : ConnectionManager) (ws : Nat) : ConnectionManager :=
  { active_connections :=
      if ws ∈ m.active_connections then m.active_connections.erase ws
      else m.active_connections }

/-- `CLIENT_URLS.get(name)`: dict lookup on the in-memory registry cache
(an association list with unique keys). -/
def lookupUrl (l : List (String × String)) (n : String) : Option String :=
  match l.find? (fun c => c.1 == n) with
  | none => none
  | some c => some c.2

/-- Embedding of `manual_restart(name)` (main.py lines 300-309):
`url = CLIENT_URLS.get(name); if not url: return {"error": "Service not found"}`
— Python's `not url` is true both when the name is absent (`None`) and when
the stored URL is the empty string.  Otherwise it creates a
`trigger_n8n_alert(name, url, "Manual Restart Triggered")` task and returns
`{"status": "restart_triggered", "name": name}`.  The response is the
returned dict as a key-value list; the state is unchanged except for the
created alert task. -/
def manual_restart (s : AppState) (name : String) :
    List (String × String) × AppState :=
  match lookupUrl s.client_urls name with
  | none => ([("error", "Service not found")], s)
  | some url =>
      if url = "" then ([("error", "Service not found")], s)
      else
        ([("status", "restart_triggered"), ("name", name)],
         { s with check :=
            { s.check with alerts :=
                s.check.alerts ++ [⟨name, url, "Manual Restart Triggered"⟩] } })

/-! ## Helper lemmas -/

@[simp] lemma status_up_beq_up : (Status.up == Status.up) = true := rfl

@[simp] lemma status_up_beq_down : (Status.up == Status.down) = false := rfl

@[simp] lemma status_down_beq_up : (Status.down == Status.up) = false := rfl

@[simp] lemma status_down_beq_down : (Status.down == Status.down) = true := rfl

lemma int_fdiv_one (x : Int) : Int.fdiv x 1 = x := by
  rcases x with (_ | n) | n
  · rfl
  · show Int.ofNat ((n + 1) / 1) = Int.ofNat (n + 1)
    rw [Nat.div_one]
  · show Int.negSucc (n / 1) = Int.negSucc n
    rw [Nat.div_one]

lemma ratFloor_intCast (x : Int) : ratFloor (x : ℚ) = x := by
  simp [ratFloor, int_fdiv_one]

lemma roundHalfEven_intCast (x : Int) : roundHalfEven (x : ℚ) = x := by
  simp only [roundHalfEven, ratFloor_intCast, sub_self]
  norm_num

lemma pyRound2_100 : pyRound2 100 = 100 := by
  have h : ((100 : ℚ) * 100) = ((10000 : Int) : ℚ) := by norm_num
  rw [pyRound2, h, roundHalfEven_intCast]
  norm_num

lemma insertStable_of_le {α : Type} (k : α → Nat) (x : α) (l : List α)
    (h : ∀ y ∈ l, k x ≤ k y) : insertStable k x l = x :: l := by
  cases l with
  | nil => rfl
  | cons y ys => simp [insertStable, h y (List.mem_cons_self y ys)]

lemma insertStable_append {α : Type} (k : α → Nat) (x : α) (l1 l2 : List α)
    (h : ∀ y ∈ l1, k y < k x) :
    insertStable k x (l1 ++ l2) = l1 ++ insertStable k x l2 := by
  induction l1 with
  | nil => rfl
  | cons y ys ih =>
      have hy : ¬ k x ≤ k y := Nat.not_le.mpr (h y (List.mem_cons_self y ys))
      simp only [List.cons_append, insertStable, if_neg hy, List.append_eq]
      rw [ih fun z hz => h z (List.mem_cons_of_mem y hz)]

lemma pySort_two_valued {α : Type} (k : α → Nat) (hk : ∀ a, k a ≤ 1)
    (l : List α) :
    pySort k l = l.filter (fun a => k a == 0) ++ l.filter (fun a => ! (k a == 0)) := by
  induction l with
  | nil => rfl
  | cons x xs ih =>
      show insertStable k x (pySort k xs) = _
      rw [ih]
      by_cases hx : k x = 0
      · rw [insertStable_of_le k x _ (fun y _ => hx ▸ Nat.zero_le _)]
        simp [List.filter, hx]
      · have hx1 : k x = 1 := by have := hk x; omega
        have hb : (k x == 0) = false := by simpa using hx
        rw [insertStable_append k x _ _ ?_]
        · rw [insertStable_of_le k x _ ?_]
          · simp [List.filter, hb]
          · intro y hy
            have := (List.mem_filter.mp hy).2
            have : k y ≠ 0 := by simpa using this
            have := hk y
            omega
        · intro y hy
          have := (List.mem_filter.mp hy).2
          have hy0 : k y = 0 := by simpa using this
          omega

lemma mem_pySort {α : Type} (k : α → Nat) (hk : ∀ a, k a ≤ 1) (l : List α)
    (a : α) : a ∈ pySort k l ↔ a ∈ l := by
  rw [pySort_two_valued k hk]
  simp only [List.mem_append, List.mem_filter]
  by_cases h : (k a == 0) = true <;> simp [h]

lemma sortKey_le_one (r : FinalResult) : sortKey r ≤ 1 := by
  by_cases h : r.res.status = Status.down <;> simp [sortKey, h]

lemma sortKey_beq_zero (r : FinalResult) :
    (sortKey r == 0) = (r.res.status == Status.down) := by
  cases hs : r.res.status <;> simp [sortKey, hs]

lemma check_single_url_name (st : CheckState) (n u : String) (o : HttpOutcome)
    (t : Int) : ((check_single_url st n u o t).1).name = n := by
  cases o <;> rfl

lemma runChecks_names (net : String → String → HttpOutcome) (now : Int) :
    ∀ (l : List (String × String)) (st : CheckState),
      ((runChecks net now st l).1).map ProbeResult.name = l.map Prod.fst
  | [], _ => rfl
  | (n, u) :: rest, st => by
      simp only [runChecks, List.map]
      rw [check_single_url_name, runChecks_names net now rest]

lemma attachUptime_some (uptimeOf : String → Option (ℚ × ℚ)) :
    ∀ (rs : List ProbeResult) (fr : List FinalResult),
      attachUptime uptimeOf rs = some fr →
      fr.map FinalResult.res = rs ∧ ∀ f ∈ fr, uptimeOf f.res.name = some f.uptime := by
  intro rs
  induction rs with
  | nil =>
      intro fr h
      simp only [attachUptime, Option.some.injEq] at h
      subst h
      simp
  | cons r rest ih =>
      intro fr h
      simp only [attachUptime] at h
      cases hu : uptimeOf r.name with
      | none => rw [hu] at h; exact absurd h (by simp)
      | some stats =>
          rw [hu] at h
          rcases Option.map_eq_some'.mp h with ⟨l, hl, hfr⟩
          rcases ih l hl with ⟨hmap, hall⟩
          subst hfr
          refine ⟨by simp [hmap], ?_⟩
          intro f hf
          rcases List.mem_cons.mp hf with hf | hf
          · subst hf; simpa using hu
          · exact hall f hf

/-! ## Claim theorems -/

/-- Claim C1 (code-bug evidence).  The claim says every completed probe
appends exactly one `CheckRecord`, whether the result came from an HTTP
response or from a transport failure.  In the code, the `try` block of
`check_single_url` returns the result dict directly when a response is
received, so the `log_check` append after the `try`/`except` is skipped:
probing with a received HTTP 200 appends nothing, while only the
transport-failure path appends its one record. -/
theorem check_single_url_response_appends_no_record :
    (check_single_url cs0 "svc1" "https://good.example" (.response 200) 0).1.status
        = Status.up ∧
    (check_single_url cs0 "svc1" "https://good.example" (.response 200) 0).2.history
        = [] ∧
    (check_single_url cs0 "svc2" "https://bad.example" (.failure "timeout") 0).2.history
        = [⟨"svc2", 0, Status.down⟩] := by
  decide

/-- Claim C2 (code-bug evidence).  The claim says that when records exist in
the window the uptime is the exact up-ratio — in particular `0.0` when all
records are down — and `100.0` only when the window is empty.  With exactly
one `down` record in the window the SQL percentage is `0`, but
`get_uptime_stats` returns `100` for both windows because Python's
`row[0] or 100.0` treats the falsy `0.0` like SQL `NULL`. -/
theorem get_uptime_stats_all_down_returns_100 :
    sqlUptimePct [⟨"svc", 0, Status.down⟩] "svc" (0 - 86400) = some 0 ∧
    get_uptime_stats [⟨"svc", 0, Status.down⟩] "svc" 0 = (100, 100) := by
  constructor
  · simp [sqlUptimePct, inWindow, List.filter]
  · simp [get_uptime_stats, sqlUptimePct, inWindow, List.filter, pyOrDefault,
      pyRound2_100]

/-- Claim C3 (code-bug evidence).  The claim says `PreviousStatusMap[name]`
equals the latest probe's resulting status, so after down, then up, then
down, the second down fires a new alert (two alerts in total).  In the code
the response path returns early and never updates
`state.previous_url_statuses`: after the up probe the map still shows
`down`, and the second transport failure therefore fires no alert — the
alert log still has length 1 after all three probes. -/
theorem check_single_url_stale_prev_suppresses_alert :
    (let st1 := (check_single_url cs0 "svc" "https://a.example" (.failure "timeout") 0).2
     let p2 := check_single_url st1 "svc" "https://a.example" (.response 200) 1
     let st3 := (check_single_url p2.2 "svc" "https://a.example" (.failure "timeout") 2).2
     p2.1.status = Status.up ∧
     p2.2.prev "svc" = some Status.down ∧
     st3.alerts.length = 1) := by
  decide

/-- Claim C4 (code-bug evidence).  The claim says an up, down, down sequence
fires exactly one alert, on the first down.  When the downs are received
HTTP responses (e.g. status 500), the early return in `check_single_url`
skips the alert block entirely and no alert ever fires. -/
theorem up_down_down_via_responses_fires_no_alert :
    (let p1 := check_single_url cs0 "svc" "https://a.example" (.response 200) 0
     let p2 := check_single_url p1.2 "svc" "https://a.example" (.response 500) 1
     let p3 := check_single_url p2.2 "svc" "https://a.example" (.response 500) 2
     p1.1.status = Status.up ∧ p2.1.status = Status.down ∧
     p3.1.status = Status.down ∧ p3.2.alerts = []) := by
  decide

/-- Claim C5: classification of one probe.  A received response with status
code in `[200, 400)` yields `up` with that code and no error; a received
response outside that range yields `down` with that code; a transport-level
failure yields `down`, status code `0`, and the exception text as the
error. -/
theorem check_single_url_classification (st : CheckState) (name url : String)
    (now : Int) (outcome : HttpOutcome) :
    match outcome with
    | .response code =>
        (check_single_url st name url outcome now).1.status_code = code ∧
        (check_single_url st name url outcome now).1.error = none ∧
        ((check_single_url st name url outcome now).1.status = Status.up ↔
          (200 ≤ code ∧ code < 400)) ∧
        ((check_single_url st name url outcome now).1.status = Status.down ↔
          ¬ (200 ≤ code ∧ code < 400))
    | .failure msg =>
        (check_single_url st name url outcome now).1.status = Status.down ∧
        (check_single_url st name url outcome now).1.status_code = 0 ∧
        (check_single_url st name url outcome now).1.error = some msg := by
  cases outcome with
  | response code =>
      refine ⟨rfl, rfl, ?_, ?_⟩ <;>
        · show (if 200 ≤ code ∧ code < 400 then Status.up else Status.down) = _ ↔ _
          split <;> simp_all
  | failure msg => exact ⟨rfl, rfl, rfl⟩

/-- Claim C6: after a probe round that completes (the uptime lookups all
succeed, producing the final-result list `fr` in gathered order), the
published `url_statuses` list is exactly the `down` entries of `fr` in their
original relative order followed by the remaining (`up`) entries in their
original relative order — every `down` entry precedes every `up` entry and
the order within each status class is preserved, since Python's
`list.sort(key=...)` is stable. -/
theorem monitor_urls_once_publishes_down_first
    (net : String → String → HttpOutcome) (uptimeOf : String → Option (ℚ × ℚ))
    (now : Int) (s : AppState) (fr : List FinalResult)
    (h : attachUptime uptimeOf (runChecks net now s.check s.client_urls).1 = some fr) :
    (monitor_urls_once net uptimeOf now s).url_statuses =
      fr.filter (fun r => r.res.status == Status.down) ++
      fr.filter (fun r => ! (r.res.status == Status.down)) := by
  simp only [monitor_urls_once, h]
  rw [pySort_two_valued sortKey sortKey_le_one]
  have h1 : fr.filter (fun a => sortKey a == 0) =
      fr.filter (fun r => r.res.status == Status.down) :=
    List.filter_congr (fun r _ => sortKey_beq_zero r)
  have h2 : fr.filter (fun a => ! (sortKey a == 0)) =
      fr.filter (fun r => ! (r.res.status == Status.down)) :=
    List.filter_congr (fun r _ => by rw [sortKey_beq_zero r])
  rw [h1, h2]

/-- Witness for C6 at a concrete round: two targets, `"a"` answering 200
(up) and `"b"` answering 500 (down); the published list is the down entry
followed by the up entry. -/
theorem monitor_urls_once_publishes_down_first_witness :
    (monitor_urls_once (fun n _ => if n = "a" then .response 200 else .response 500)
        (fun _ => some (100, 100)) 0
        ⟨[("a", "ua"), ("b", "ub")], [], [], cs0⟩).url_statuses =
      List.filter (fun r => r.res.status == Status.down)
          [⟨⟨"a", "ua", Status.up, 200, none⟩, (100, 100)⟩,
           ⟨⟨"b", "ub", Status.down, 500, none⟩, (100, 100)⟩] ++
      List.filter (fun r => ! (r.res.status == Status.down))
          [⟨⟨"a", "ua", Status.up, 200, none⟩, (100, 100)⟩,
           ⟨⟨"b", "ub", Status.down, 500, none⟩, (100, 100)⟩] :=
  monitor_urls_once_publishes_down_first
    (fun n _ => if n = "a" then .response 200 else .response 500)
    (fun _ => some (100, 100)) 0
    ⟨[("a", "ua"), ("b", "ub")], [], [], cs0⟩
    [⟨⟨"a", "ua", Status.up, 200, none⟩, (100, 100)⟩,
     ⟨⟨"b", "ub", Status.down, 500, none⟩, (100, 100)⟩] rfl

/-- Claim C7: a probe round publishes all-or-nothing.  If any uptime lookup
raises, the exception propagates before `state.url_statuses` is assigned and
the prior snapshot is retained unchanged; if the round completes, the single
assignment installs a list containing, for every registered target, an entry
with that target's name and its looked-up uptime — never a half-updated
list. -/
theorem monitor_urls_once_all_or_nothing
    (net : String → String → HttpOutcome) (uptimeOf : String → Option (ℚ × ℚ))
    (now : Int) (s : AppState) :
    (attachUptime uptimeOf (runChecks net now s.check s.client_urls).1 = none →
        (monitor_urls_once net uptimeOf now s).url_statuses = s.url_statuses) ∧
    (∀ fr, attachUptime uptimeOf (runChecks net now s.check s.client_urls).1 = some fr →
        ∀ nu ∈ s.client_urls,
          ∃ r ∈ (monitor_urls_once net uptimeOf now s).url_statuses,
            r.res.name = nu.1 ∧ uptimeOf nu.1 = some r.uptime) := by
  constructor
  · intro h
    simp only [monitor_urls_once, h]
  · intro fr h nu hnu
    rcases attachUptime_some uptimeOf _ fr h with ⟨hmap, hall⟩
    have hname : nu.1 ∈ ((runChecks net now s.check s.client_urls).1).map ProbeResult.name := by
      rw [runChecks_names]
      exact List.mem_map_of_mem Prod.fst hnu
    rw [← hmap, List.map_map] at hname
    rcases List.mem_map.mp hname with ⟨f, hf, hfname⟩
    refine ⟨f, ?_, hfname, by rw [← hfname]; exact hall f hf⟩
    simp only [monitor_urls_once, h]
    exact (mem_pySort sortKey sortKey_le_one fr f).mpr hf

/-- Witness for C7: with one registered target, a failing uptime lookup
leaves the previous snapshot in place, and a succeeding round installs an
entry for the target with its looked-up uptime. -/
theorem monitor_urls_once_all_or_nothing_witness :
    (monitor_urls_once (fun _ _ => .response 200) (fun _ => none) 0
        ⟨[("a", "ua")], [], [⟨⟨"x", "ux", Status.up, 200, none⟩, (100, 100)⟩], cs0⟩).url_statuses =
      [⟨⟨"x", "ux", Status.up, 200, none⟩, (100, 100)⟩] ∧
    ∃ r ∈ (monitor_urls_once (fun _ _ => .response 200) (fun _ => some (50, 75)) 0
        ⟨[("a", "ua")], [], [], cs0⟩).url_statuses,
      r.res.name = "a" ∧ (fun _ => some ((50 : ℚ), (75 : ℚ))) "a" = some r.uptime :=
  ⟨(monitor_urls_once_all_or_nothing (fun _ _ => .response 200) (fun _ => none) 0
      ⟨[("a", "ua")], [], [⟨⟨"x", "ux", Status.up, 200, none⟩, (100, 100)⟩], cs0⟩).1 rfl,
   (monitor_urls_once_all_or_nothing (fun _ _ => .response 200) (fun _ => some (50, 75)) 0
      ⟨[("a", "ua")], [], [], cs0⟩).2
      [⟨⟨"a", "ua", Status.up, 200, none⟩, (50, 75)⟩] rfl ("a", "ua")
      (List.mem_singleton.mpr rfl)⟩

lemma sqlUptimePct_of_purged (recs : List CheckRecord) (name : String) (lo : Int)
    (h : ∀ r ∈ recs, r.name ≠ name) : sqlUptimePct recs name lo = none := by
  have hrel : recs.filter (fun r => inWindow r name lo) = [] := by
    rw [List.filter_eq_nil_iff]
    intro r hr
    simp [inWindow, h r hr]
  simp [sqlUptimePct, hrel]

lemma get_uptime_stats_of_purged (recs : List CheckRecord) (name : String)
    (now : Int) (h : ∀ r ∈ recs, r.name ≠ name) :
    get_uptime_stats recs name now = (100, 100) := by
  simp [get_uptime_stats, sqlUptimePct_of_purged _ _ _ h, pyOrDefault, pyRound2_100]

/-- Claim C8: `remove_db_client` deletes the target's registry row and every
one of its history records; when the name is absent from both tables it is a
no-op (idempotent); and after a removal, `get_uptime_stats` for that name —
also after the name is re-added via `add_db_client`, which writes no history
— is computed over zero records and returns the 100.0 default for both
windows. -/
theorem remove_db_client_purges_history (db : Db) (name : String) (now : Int) :
    (∀ c ∈ (remove_db_client name db).clients, c.1 ≠ name) ∧
    (∀ r ∈ (remove_db_client name db).status_checks, r.name ≠ name) ∧
    ((∀ c ∈ db.clients, c.1 ≠ name) → (∀ r ∈ db.status_checks, r.name ≠ name) →
        remove_db_client name db = db) ∧
    get_uptime_stats (remove_db_client name db).status_checks name now = (100, 100) ∧
    (∀ url, get_uptime_stats
        (add_db_client name url (remove_db_client name db)).status_checks name now
      = (100, 100)) := by
  have hpurged : ∀ r ∈ (remove_db_client name db).status_checks, r.name ≠ name := by
    intro r hr
    have := (List.mem_filter.mp hr).2
    simpa using this
  refine ⟨?_, hpurged, ?_, ?_, ?_⟩
  · intro c hc
    have := (List.mem_filter.mp hc).2
    simpa using this
  · intro hc hr
    obtain ⟨cl, sc⟩ := db
    simp only [remove_db_client, Db.mk.injEq]
    constructor
    · rw [List.filter_eq_self]
      intro c hcm
      simpa using hc c hcm
    · rw [List.filter_eq_self]
      intro r hrm
      simpa using hr r hrm
  · exact get_uptime_stats_of_purged _ _ _ hpurged
  · intro url
    exact get_uptime_stats_of_purged _ _ _ hpurged

/-- Witness for C8 at a concrete database holding an unrelated target and
one of its history records: removing the absent name `"svc"` is a no-op and
its uptime stats afterwards are the 100.0 defaults. -/
theorem remove_db_client_purges_history_witness :
    remove_db_client "svc" ⟨[("a", "ua")], [⟨"a", 0, Status.up⟩]⟩ =
      ⟨[("a", "ua")], [⟨"a", 0, Status.up⟩]⟩ ∧
    get_uptime_stats
        (remove_db_client "svc" ⟨[("a", "ua")], [⟨"a", 0, Status.up⟩]⟩).status_checks
        "svc" 0 = (100, 100) :=
  ⟨(remove_db_client_purges_history ⟨[("a", "ua")], [⟨"a", 0, Status.up⟩]⟩ "svc" 0).2.2.1
      (by decide) (by decide),
   (remove_db_client_purges_history ⟨[("a", "ua")], [⟨"a", 0, Status.up⟩]⟩ "svc" 0).2.2.2.1⟩

lemma broadcastLoop_eq_map (p : Payload) (ok : Nat → Bool) (l : List Nat) :
    broadcastLoop p ok l = l.map (fun c => (c, p, ok c)) := by
  induction l with
  | nil => rfl
  | cons c cs ih => simp [broadcastLoop, ih]

/-- Claim C9: `broadcast` attempts a send of one identical payload to every
registered observer in order — a failing send (the `sendOk` oracle) is
swallowed and does not abort the remaining deliveries — it never raises (it
is a total function), and it leaves `active_connections` untouched; the
failing observer is removed only by `disconnect`, which `websocket_endpoint`
calls on that observer's next interaction. -/
theorem broadcast_isolates_observer_failures (m : ConnectionManager)
    (s : AppState) (sendOk : Nat → Bool) (ws : Nat) :
    (broadcast m s sendOk).1 = m ∧
    (broadcast m s sendOk).2 =
      m.active_connections.map (fun c => (c, get_payload s, sendOk c)) ∧
    (disconnect m ws).active_connections = m.active_connections.erase ws := by
  refine ⟨rfl, broadcastLoop_eq_map _ _ _, ?_⟩
  simp only [disconnect]
  split
  · rfl
  · next hmem => exact (List.erase_of_not_mem hmem).symm

/-- Claim C10 counterexample: the claim says every name present in the
registry cache gets `restart_triggered` and a fired alert, but
`manual_restart` tests `if not url:`, and Python's `not` is also true for
the empty string — a registered name whose stored URL is `""` gets
`{"error": "Service not found"}` and no alert despite being present. -/
theorem manual_restart_present_name_counterexample :
    lookupUrl [("svc", "")] "svc" = some "" ∧
    (manual_restart ⟨[("svc", "")], [], [], cs0⟩ "svc").1 =
      [("error", "Service not found")] ∧
    (manual_restart ⟨[("svc", "")], [], [], cs0⟩ "svc").2.check.alerts = [] :=
  ⟨rfl, rfl, rfl⟩

/-- Claim C10 as amended: when the lookup misses or yields the empty string
(Python-falsy), the endpoint returns the error dict and the state — in
particular the fired-alert log, snapshot, and history — is unchanged; when
the lookup yields a non-empty URL, it returns the `restart_triggered` dict
and the only state change is one fired alert with the caller-independent
reason `"Manual Restart Triggered"`. -/
theorem manual_restart_spec (s : AppState) (name : String) :
    ((lookupUrl s.client_urls name = none ∨ lookupUrl s.client_urls name = some "") →
        manual_restart s name = ([("error", "Service not found")], s)) ∧
    (∀ url, lookupUrl s.client_urls name = some url → url ≠ "" →
        manual_restart s name =
          ([("status", "restart_triggered"), ("name", name)],
           { s with check :=
              { s.check with alerts :=
                  s.check.alerts ++ [⟨name, url, "Manual Restart Triggered"⟩] } })) := by
  constructor
  · rintro (h | h) <;> simp [manual_restart, h]
  · intro url h hne
    simp [manual_restart, h, hne]

/-- Witness for the amended C10: a missing name returns the error dict with
the state unchanged, and a name with a non-empty URL returns
`restart_triggered` with exactly one alert appended. -/
theorem manual_restart_spec_witness :
    manual_restart ⟨[("svc", "https://s.example")], [], [], cs0⟩ "missing" =
      ([("error", "Service not found")],
       ⟨[("svc", "https://s.example")], [], [], cs0⟩) ∧
    manual_restart ⟨[("svc", "https://s.example")], [], [], cs0⟩ "svc" =
      ([("status", "restart_triggered"), ("name", "svc")],
       { (⟨[("svc", "https://s.example")], [], [], cs0⟩ : AppState) with check :=
          { cs0 with alerts :=
              cs0.alerts ++ [⟨"svc", "https://s.example", "Manual Restart Triggered"⟩] } }) :=
  ⟨(manual_restart_spec ⟨[("svc", "https://s.example")], [], [], cs0⟩ "missing").1
      (Or.inl rfl),
   (manual_restart_spec ⟨[("svc", "https://s.example")], [], [], cs0⟩ "svc").2
      "https://s.example" rfl (by decide)⟩

end Monitor
